import Mathlib

/-!
Verification of the openalgo live-trading execution engine: the position
state machine, trailing-stop risk rules, multi-leg order sequencing and
signal evaluation of the two bot scripts
(trading/confluence_bot.py and strategies/scripts/hedge_bot.py).

Prices are modelled as exact rationals; the Python dictionaries returned by
the broker gateway are abstracted into an outcome type recording whether a
call returned success, returned a non-success status, or raised.
All definitions are translated from the live (DRY_RUN = False) branches of
the source.
-/

/-- Outcome of one broker gateway call: the placeorder response had
status == success, had a non-success status, or the call raised. -/
inductive GatewayOutcome
  | success
  | failStatus
  | raised
deriving DecidableEq

/-- Strategy signal side passed to place_order: BUY (long signal) or
SELL (short signal). -/
inductive Side
  | BUY
  | SELL
deriving DecidableEq

/-- Python built-in round on an exact rational: round half to even.
round(q) with f = floor(q): below-half fractional part rounds down,
above-half rounds up, and an exact half goes to the even neighbour. -/
def pyRound (q : ℚ) : ℤ :=
  let f := ⌊q⌋
  let r := q - (f : ℚ)
  if r < 1/2 then f
  else if r > 1/2 then f + 1
  else if f % 2 = 0 then f else f + 1

/-- ATM strike computation shared by both bots inside get_option_symbol:
strike = round(price / 50) * 50. -/
def atm_strike (price : ℚ) : ℤ :=
  pyRound (price / 50) * 50

namespace Confluence

/-- Risk constant STOP_LOSS_POINTS = 20 of confluence_bot.py. -/
def STOP_LOSS_POINTS : ℚ := 20

/-- Risk constant TAKE_PROFIT_POINTS = 50 of confluence_bot.py. -/
def TAKE_PROFIT_POINTS : ℚ := 50

/-- Risk constant TSL_ACTIVATION_POINTS = 20 of confluence_bot.py. -/
def TSL_ACTIVATION_POINTS : ℚ := 20

/-- Risk constant TSL_TRAIL_POINTS = 10 of confluence_bot.py. -/
def TSL_TRAIL_POINTS : ℚ := 10

/-- Direction of the held position: the position global is LONG or SHORT
(option-buying mode trades only long option legs, the direction recorded
is that of the strategy signal). -/
inductive Direction
  | LONG
  | SHORT
deriving DecidableEq

/-- The module-level mutable state of confluence_bot.py. The position
global is None when flat; entry_price, stop_loss, take_profit,
highest_price, lowest_price are the risk levels on the future, and
traded_option_symbol is the actually traded option instrument. -/
structure CState where
  position : Option Direction
  entry_price : ℚ
  stop_loss : ℚ
  take_profit : ℚ
  highest_price : ℚ
  lowest_price : ℚ
  traded_option_symbol : Option String
deriving DecidableEq

/-- Initial globals of confluence_bot.py: no position, all levels 0,
no traded option symbol. -/
def initCState : CState :=
  { position := none
    entry_price := 0
    stop_loss := 0
    take_profit := 0
    highest_price := 0
    lowest_price := 0
    traded_option_symbol := none }

/-- get_option_symbol of confluence_bot.py: strips FUT from the future
symbol, appends the rounded ATM strike and CE for a BUY signal or PE for
a SELL signal. -/
def get_option_symbol (future_symbol : String) (price : ℚ) (side : Side) : String :=
  let base := future_symbol.replace "FUT" ""
  let strike := atm_strike price
  let opt_type := if side = Side.BUY then "CE" else "PE"
  base ++ toString strike ++ opt_type

/-- place_order of confluence_bot.py in live option-buying mode
(DRY_RUN = False, IS_OPTION_BUYING = True). The option symbol is computed
and stored in traded_option_symbol before the gateway call; only on a
success status are position, entry_price, stop_loss, take_profit and the
trailing extreme set. On a non-success status or a raised exception no
further global is touched. -/
def place_order (current_symbol : String) (side : Side) (price : ℚ)
    (res : GatewayOutcome) (s : CState) : CState :=
  let opt_sym := get_option_symbol current_symbol price side
  let s1 : CState := { s with traded_option_symbol := some opt_sym }
  match res with
  | GatewayOutcome.success =>
    match side with
    | Side.BUY =>
      { s1 with
        position := some Direction.LONG
        entry_price := price
        stop_loss := price - STOP_LOSS_POINTS
        take_profit := price + TAKE_PROFIT_POINTS
        highest_price := price }
    | Side.SELL =>
      { s1 with
        position := some Direction.SHORT
        entry_price := price
        stop_loss := price + STOP_LOSS_POINTS
        take_profit := price - TAKE_PROFIT_POINTS
        lowest_price := price }
  | GatewayOutcome.failStatus => s1
  | GatewayOutcome.raised => s1

/-- close_position of confluence_bot.py: places the exit order, then
unconditionally resets position, entry_price, stop_loss, take_profit and
traded_option_symbol (the reset lines run after the try/except whatever
the exit call returned; highest_price and lowest_price are not reset). -/
def close_position (res : GatewayOutcome) (s : CState) : CState :=
  match res with
  | _ =>
    { s with
      position := none
      entry_price := 0
      stop_loss := 0
      take_profit := 0
      traded_option_symbol := none }

/-- Reason string passed by check_exit_conditions to close_position. -/
inductive CloseReason
  | STOP_LOSS
  | TAKE_PROFIT
deriving DecidableEq

/-- Record of one close fired by the exit check: the reason, the trigger
price and the stop-loss level in force when the close fired. -/
structure CloseEvent where
  reason : CloseReason
  trigger : ℚ
  sl_level : ℚ
deriving DecidableEq

/-- Trailing-stop update of the LONG branch of check_exit_conditions:
on a new high the extreme is advanced, and once the excursion from the
entry reference reaches TSL_ACTIVATION_POINTS the stop is raised to the
extreme minus TSL_TRAIL_POINTS, but only if that is strictly above the
current stop. -/
def trail_update_long (current_price : ℚ) (s : CState) : CState :=
  if current_price > s.highest_price then
    let hp := current_price
    if hp - s.entry_price ≥ TSL_ACTIVATION_POINTS then
      let new_sl := hp - TSL_TRAIL_POINTS
      if new_sl > s.stop_loss then
        { s with highest_price := hp, stop_loss := new_sl }
      else
        { s with highest_price := hp }
    else
      { s with highest_price := hp }
  else s

/-- Trailing-stop update of the SHORT branch of check_exit_conditions:
on a new low the extreme is advanced, and once the excursion from the
entry reference reaches TSL_ACTIVATION_POINTS the stop is lowered to the
extreme plus TSL_TRAIL_POINTS, but only if that is strictly below the
current stop. -/
def trail_update_short (current_price : ℚ) (s : CState) : CState :=
  if current_price < s.lowest_price then
    let lp := current_price
    if s.entry_price - lp ≥ TSL_ACTIVATION_POINTS then
      let new_sl := lp + TSL_TRAIL_POINTS
      if new_sl < s.stop_loss then
        { s with lowest_price := lp, stop_loss := new_sl }
      else
        { s with lowest_price := lp }
    else
      { s with lowest_price := lp }
  else s

/-- check_exit_conditions of confluence_bot.py, one exit-loop tick:
no-op when flat; otherwise the trailing stop is updated first, then the
stop-loss comparison is made and, only in its elif, the take-profit
comparison; a crossing closes the position through close_position (whose
gateway outcome is res). The returned event records which close fired. -/
def check_exit_conditions (res : GatewayOutcome) (current_price : ℚ)
    (s : CState) : CState × Option CloseEvent :=
  match s.position with
  | none => (s, none)
  | some Direction.LONG =>
    let s1 := trail_update_long current_price s
    if current_price ≤ s1.stop_loss then
      (close_position res s1,
       some { reason := CloseReason.STOP_LOSS, trigger := current_price, sl_level := s1.stop_loss })
    else if current_price ≥ s1.take_profit then
      (close_position res s1,
       some { reason := CloseReason.TAKE_PROFIT, trigger := current_price, sl_level := s1.stop_loss })
    else (s1, none)
  | some Direction.SHORT =>
    let s1 := trail_update_short current_price s
    if current_price ≥ s1.stop_loss then
      (close_position res s1,
       some { reason := CloseReason.STOP_LOSS, trigger := current_price, sl_level := s1.stop_loss })
    else if current_price ≤ s1.take_profit then
      (close_position res s1,
       some { reason := CloseReason.TAKE_PROFIT, trigger := current_price, sl_level := s1.stop_loss })
    else (s1, none)

/-- State after one exit-loop tick. -/
def stepState (res : GatewayOutcome) (current_price : ℚ) (s : CState) : CState :=
  (check_exit_conditions res current_price s).1

/-- State after a sequence of exit-loop price ticks. -/
def runState (res : GatewayOutcome) (s : CState) (ps : List ℚ) : CState :=
  ps.foldl (fun t p => stepState res p t) s

/-- State plus the list of close events fired over a sequence of
exit-loop price ticks. -/
def runTicks (res : GatewayOutcome) (s : CState) (ps : List ℚ) :
    CState × List CloseEvent :=
  ps.foldl
    (fun acc p =>
      let r := check_exit_conditions res p acc.1
      (r.1, acc.2 ++ r.2.toList))
    (s, [])

/-- One engine operation of confluence_bot.py: an entry-loop attempt
(which calls place_order only while flat) or an exit-loop tick. -/
inductive COp
  | placeOrder : Side → ℚ → GatewayOutcome → COp
  | exitTick : GatewayOutcome → ℚ → COp

/-- Apply one engine operation to the shared state. -/
def applyCOp (current_symbol : String) (s : CState) : COp → CState
  | COp.placeOrder side price res =>
    if s.position = none then place_order current_symbol side price res s else s
  | COp.exitTick res price => stepState res price s

/-- State reached from a start state by a sequence of engine operations. -/
def runCOps (current_symbol : String) (s : CState) (ops : List COp) : CState :=
  ops.foldl (applyCOp current_symbol) s

end Confluence

namespace Hedge

/-- Risk constant STOP_LOSS_POINTS = 20 of hedge_bot.py. -/
def STOP_LOSS_POINTS : ℚ := 20

/-- Risk constant TAKE_PROFIT_POINTS = 50 of hedge_bot.py. -/
def TAKE_PROFIT_POINTS : ℚ := 50

/-- Risk constant TSL_ACTIVATION_POINTS = 20 of hedge_bot.py. -/
def TSL_ACTIVATION_POINTS : ℚ := 20

/-- Risk constant TSL_TRAIL_POINTS = 10 of hedge_bot.py. -/
def TSL_TRAIL_POINTS : ℚ := 10

/-- Spread width constant SPREAD_WIDTH = 200 of hedge_bot.py. -/
def SPREAD_WIDTH : ℤ := 200

/-- Position kind of hedge_bot.py: the position global is BULL_SPREAD
after a BUY signal entry or BEAR_SPREAD after a SELL signal entry. -/
inductive HPos
  | BULL_SPREAD
  | BEAR_SPREAD
deriving DecidableEq

/-- The module-level mutable state of hedge_bot.py: position direction,
risk levels on the future, and the two leg symbols, traded_long_symbol
(the bought ATM leg, the PRIMARY) and traded_short_symbol (the sold OTM
hedge leg). -/
structure HState where
  position : Option HPos
  entry_price : ℚ
  stop_loss : ℚ
  take_profit : ℚ
  highest_price : ℚ
  lowest_price : ℚ
  traded_long_symbol : Option String
  traded_short_symbol : Option String
deriving DecidableEq

/-- Initial globals of hedge_bot.py: flat, all levels 0, no legs. -/
def initHState : HState :=
  { position := none
    entry_price := 0
    stop_loss := 0
    take_profit := 0
    highest_price := 0
    lowest_price := 0
    traded_long_symbol := none
    traded_short_symbol := none }

/-- get_option_symbol of hedge_bot.py: ATM strike from the rounded price,
shifted by the offset away from the money (up for CE, down for PE) when a
positive offset is requested, with CE for a BUY signal and PE for SELL. -/
def get_option_symbol (future_symbol : String) (price : ℚ) (side : Side)
    (offset : ℤ) : String :=
  let base := future_symbol.replace "FUT" ""
  let strike := atm_strike price
  let opt_type := if side = Side.BUY then "CE" else "PE"
  let final_strike :=
    if offset > 0 then
      (if side = Side.BUY then strike + offset else strike - offset)
    else strike
  base ++ toString final_strike ++ opt_type

/-- place_order of hedge_bot.py in live mode (DRY_RUN = False): leg 1
buys the ATM option; only on its success is traded_long_symbol recorded
and leg 2 (sell OTM) attempted. On leg-2 success both legs, position,
entry price and all risk levels are set. On a leg-2 non-success status
the source records only position and entry_price (its CRITICAL branch:
stop_loss, take_profit and the trailing extreme are left untouched and no
short symbol is recorded). A raised call unwinds to the except handler,
which changes nothing further. -/
def place_order (current_symbol : String) (side : Side) (price : ℚ)
    (res1 res2 : GatewayOutcome) (s : HState) : HState :=
  let atm_sym := get_option_symbol current_symbol price side 0
  let otm_sym := get_option_symbol current_symbol price side SPREAD_WIDTH
  match res1 with
  | GatewayOutcome.failStatus => s
  | GatewayOutcome.raised => s
  | GatewayOutcome.success =>
    let s1 : HState := { s with traded_long_symbol := some atm_sym }
    match res2 with
    | GatewayOutcome.success =>
      let pos := if side = Side.BUY then HPos.BULL_SPREAD else HPos.BEAR_SPREAD
      if side = Side.BUY then
        { s1 with
          traded_short_symbol := some otm_sym
          position := some pos
          entry_price := price
          stop_loss := price - STOP_LOSS_POINTS
          take_profit := price + TAKE_PROFIT_POINTS
          highest_price := price }
      else
        { s1 with
          traded_short_symbol := some otm_sym
          position := some pos
          entry_price := price
          stop_loss := price + STOP_LOSS_POINTS
          take_profit := price - TAKE_PROFIT_POINTS
          lowest_price := price }
    | GatewayOutcome.failStatus =>
      let pos := if side = Side.BUY then HPos.BULL_SPREAD else HPos.BEAR_SPREAD
      { s1 with
        position := some pos
        entry_price := price }
    | GatewayOutcome.raised => s1

/-- close_position of hedge_bot.py: buys back the short leg (if recorded),
then sells the long leg (if recorded, and not reached when the first exit
call raised), then unconditionally resets position, entry_price,
stop_loss, take_profit and both leg symbols — the reset lines sit after
the try/except and run whatever the exit calls returned. -/
def close_position (resShort resLong : GatewayOutcome) (s : HState) : HState :=
  match resShort, resLong with
  | _, _ =>
    { s with
      position := none
      entry_price := 0
      stop_loss := 0
      take_profit := 0
      traded_long_symbol := none
      traded_short_symbol := none }

/-- Reason passed by the hedge exit check to close_position. -/
inductive HCloseReason
  | STOP_LOSS
  | TAKE_PROFIT
deriving DecidableEq

/-- Record of one close fired by the hedge exit check. -/
structure HCloseEvent where
  reason : HCloseReason
  trigger : ℚ
  sl_level : ℚ
deriving DecidableEq

/-- Trailing-stop update of the BULL_SPREAD branch of the hedge
check_exit_conditions. -/
def trail_update_bull (current_price : ℚ) (s : HState) : HState :=
  if current_price > s.highest_price then
    let hp := current_price
    if hp - s.entry_price ≥ TSL_ACTIVATION_POINTS then
      let new_sl := hp - TSL_TRAIL_POINTS
      if new_sl > s.stop_loss then
        { s with highest_price := hp, stop_loss := new_sl }
      else
        { s with highest_price := hp }
    else
      { s with highest_price := hp }
  else s

/-- Trailing-stop update of the BEAR_SPREAD branch of the hedge
check_exit_conditions. -/
def trail_update_bear (current_price : ℚ) (s : HState) : HState :=
  if current_price < s.lowest_price then
    let lp := current_price
    if s.entry_price - lp ≥ TSL_ACTIVATION_POINTS then
      let new_sl := lp + TSL_TRAIL_POINTS
      if new_sl < s.stop_loss then
        { s with lowest_price := lp, stop_loss := new_sl }
      else
        { s with lowest_price := lp }
    else
      { s with lowest_price := lp }
  else s

/-- check_exit_conditions of hedge_bot.py, one exit-loop tick: trailing
update first, then the stop-loss comparison, then in its elif the
take-profit comparison. -/
def check_exit_conditions (resShort resLong : GatewayOutcome)
    (current_price : ℚ) (s : HState) : HState × Option HCloseEvent :=
  match s.position with
  | none => (s, none)
  | some HPos.BULL_SPREAD =>
    let s1 := trail_update_bull current_price s
    if current_price ≤ s1.stop_loss then
      (close_position resShort resLong s1,
       some { reason := HCloseReason.STOP_LOSS, trigger := current_price, sl_level := s1.stop_loss })
    else if current_price ≥ s1.take_profit then
      (close_position resShort resLong s1,
       some { reason := HCloseReason.TAKE_PROFIT, trigger := current_price, sl_level := s1.stop_loss })
    else (s1, none)
  | some HPos.BEAR_SPREAD =>
    let s1 := trail_update_bear current_price s
    if current_price ≥ s1.stop_loss then
      (close_position resShort resLong s1,
       some { reason := HCloseReason.STOP_LOSS, trigger := current_price, sl_level := s1.stop_loss })
    else if current_price ≤ s1.take_profit then
      (close_position resShort resLong s1,
       some { reason := HCloseReason.TAKE_PROFIT, trigger := current_price, sl_level := s1.stop_loss })
    else (s1, none)

/-- State after one hedge exit-loop tick. -/
def stepState (resShort resLong : GatewayOutcome) (current_price : ℚ)
    (s : HState) : HState :=
  (check_exit_conditions resShort resLong current_price s).1

/-- State after a sequence of hedge exit-loop price ticks. -/
def runState (resShort resLong : GatewayOutcome) (s : HState)
    (ps : List ℚ) : HState :=
  ps.foldl (fun t p => stepState resShort resLong p t) s

end Hedge

namespace Confluence

/-- One step of an exponentially weighted mean with smoothing factor a
(pandas ewm with adjust=False): the first value initialises the mean,
every later value moves it by a times the difference. The accumulator is
none while no value has been seen, matching the leading-NaN handling. -/
def ewmStep (a : ℚ) (acc : Option ℚ) (x : ℚ) : Option ℚ :=
  match acc with
  | none => some x
  | some y => some (y + a * (x - y))

/-- Final value of the exponentially weighted mean of a series
(the last row of the ewm column computed by calculate_indicators). -/
def ewmLast (a : ℚ) (xs : List ℚ) : Option ℚ :=
  xs.foldl (ewmStep a) none

/-- Consecutive close-to-close differences, the close.diff() series of
calculate_indicators without its leading NaN. -/
def diffs : List ℚ → List ℚ
  | [] => []
  | [_] => []
  | a :: b :: t => (b - a) :: diffs (b :: t)

/-- Upward moves: delta.clip(lower=0). -/
def gains (closes : List ℚ) : List ℚ :=
  (diffs closes).map (fun d => max d 0)

/-- Downward moves: -1 * delta.clip(upper=0). -/
def losses (closes : List ℚ) : List ℚ :=
  (diffs closes).map (fun d => max (-d) 0)

/-- Last RSI value of calculate_indicators: 14-period smoothed gains and
losses (ewm with com = 13, alpha = 1/14), rsi = 100 - 100/(1 + rs).
With no delta yet the value is undefined (NaN in the source, on which
every comparison is false); a zero loss average with positive gain
average gives rs = infinity and rsi = 100, and 0/0 is again NaN. -/
def rsiLast (closes : List ℚ) : Option ℚ :=
  match ewmLast (1/14) (gains closes), ewmLast (1/14) (losses closes) with
  | some ma_up, some ma_down =>
    if ma_down = 0 then (if ma_up = 0 then none else some 100)
    else some (100 - 100 / (1 + ma_up / ma_down))
  | _, _ => none

/-- One candle of the simultaneous MACD recursion: advance the span-12
ewm, the span-26 ewm, and the span-9 ewm of their difference (the signal
line; its first value is the first macd value, which is 0 because both
price ewms start at the first close). -/
def macdStep (st : ℚ × ℚ × ℚ) (x : ℚ) : ℚ × ℚ × ℚ :=
  let f2 := st.1 + (2/13) * (x - st.1)
  let s2 := st.2.1 + (2/27) * (x - st.2.1)
  let g2 := st.2.2 + (1/5) * ((f2 - s2) - st.2.2)
  (f2, s2, g2)

/-- Last row of the MACD columns of calculate_indicators: the final
(ema12, ema26, macd_signal) triple; macd_line is ema12 - ema26. -/
def macdFold : List ℚ → Option (ℚ × ℚ × ℚ)
  | [] => none
  | x :: t => some (t.foldl macdStep (x, x, 0))

/-- Entry decision of one entry-loop tick of confluence_bot.py, taken
from the last indicator row: LONG when close > ema200, rsi < 45
(RSI_OVERSOLD) and macd_line > macd_signal; in the elif, SHORT when
close < ema200, rsi > 55 (RSI_OVERBOUGHT) and macd_line < macd_signal;
otherwise no entry. An empty candle list makes calculate_indicators
return None and the tick is skipped; an undefined RSI (NaN) fails both
comparisons. -/
def entry_signal (closes : List ℚ) : Option Direction :=
  match closes.getLast?, ewmLast (2/201) closes, rsiLast closes, macdFold closes with
  | some c, some e, some r, some (f, s, g) =>
    if c > e ∧ r < 45 ∧ f - s > g then some Direction.LONG
    else if c < e ∧ r > 55 ∧ f - s < g then some Direction.SHORT
    else none
  | _, _, _, _ => none

/-- Candle close sequence with 41 candles (fewer than the 200-period
trend window): a flat base, a spike, a long decline and a small
recovery. -/
def cexC9 : List ℚ :=
  [100, 100, 300, 294, 288, 282, 276, 270, 264, 258, 252, 246, 240, 234, 228,
   222, 216, 210, 204, 198, 192, 186, 180, 174, 168, 162, 156, 150, 144, 138,
   132, 126, 120, 114, 116, 118, 120, 122, 124, 126, 128]

end Confluence

/-- Position state produced by the C5 scenario entry: LONG from a BUY
signal at reference price 100 through a successful live placement. -/
def c5Entry : Confluence.CState :=
  Confluence.place_order "NIFTY30DEC25FUT" Side.BUY 100 GatewayOutcome.success
    Confluence.initCState

/-- Hedge state produced by a degraded live entry: BUY signal at price
26000 from flat, leg 1 succeeds, leg 2 returns a non-success status. -/
def degradedEntry : Hedge.HState :=
  Hedge.place_order "NIFTY30DEC25FUT" Side.BUY 26000 GatewayOutcome.success
    GatewayOutcome.failStatus Hedge.initHState

/-- A fully formed open bull spread with both legs recorded, as reached
by a clean two-leg entry at 26000. -/
def openSpread : Hedge.HState :=
  Hedge.place_order "NIFTY30DEC25FUT" Side.BUY 26000 GatewayOutcome.success
    GatewayOutcome.success Hedge.initHState

namespace Confluence

/-- Trailing update of a LONG position never touches position, entry,
target or leg symbol, and never lowers the stop. -/
lemma trail_update_long_fields (p : ℚ) (s : CState) :
    (trail_update_long p s).position = s.position ∧
    (trail_update_long p s).entry_price = s.entry_price ∧
    (trail_update_long p s).take_profit = s.take_profit ∧
    (trail_update_long p s).traded_option_symbol = s.traded_option_symbol ∧
    s.stop_loss ≤ (trail_update_long p s).stop_loss := by
  simp only [trail_update_long]
  split_ifs with h1 h2 h3 <;> simp <;> linarith

/-- Trailing update of a SHORT position never touches position, entry,
target or leg symbol, and never raises the stop. -/
lemma trail_update_short_fields (p : ℚ) (s : CState) :
    (trail_update_short p s).position = s.position ∧
    (trail_update_short p s).entry_price = s.entry_price ∧
    (trail_update_short p s).take_profit = s.take_profit ∧
    (trail_update_short p s).traded_option_symbol = s.traded_option_symbol ∧
    (trail_update_short p s).stop_loss ≤ s.stop_loss := by
  simp only [trail_update_short]
  split_ifs with h1 h2 h3 <;> simp <;> linarith

/-- A tick on a LONG position either keeps the trailing-updated state or
closes the position. -/
lemma stepState_long_cases (res : GatewayOutcome) (p : ℚ) (s : CState)
    (h : s.position = some Direction.LONG) :
    stepState res p s = trail_update_long p s ∨ (stepState res p s).position = none := by
  simp only [stepState, check_exit_conditions, h]
  split_ifs <;> simp [close_position]

/-- A tick on a SHORT position either keeps the trailing-updated state or
closes the position. -/
lemma stepState_short_cases (res : GatewayOutcome) (p : ℚ) (s : CState)
    (h : s.position = some Direction.SHORT) :
    stepState res p s = trail_update_short p s ∨ (stepState res p s).position = none := by
  simp only [stepState, check_exit_conditions, h]
  split_ifs <;> simp [close_position]

/-- A tick with no position held changes nothing. -/
lemma stepState_flat (res : GatewayOutcome) (p : ℚ) (s : CState)
    (h : s.position = none) : stepState res p s = s := by
  simp only [stepState, check_exit_conditions, h]

/-- A tick sequence starting flat stays at the same state. -/
lemma runState_flat (res : GatewayOutcome) (ps : List ℚ) (s : CState)
    (h : s.position = none) : runState res s ps = s := by
  induction ps generalizing s with
  | nil => rfl
  | cons p t ih =>
    show runState res (stepState res p s) t = s
    rw [stepState_flat res p s h, ih s h]

/-- Monotone tightening over a whole tick sequence, LONG side: while the
position stays open the stop never falls. -/
lemma runState_long_mono (res : GatewayOutcome) (ps : List ℚ) (s : CState)
    (h : s.position = some Direction.LONG)
    (hopen : (runState res s ps).position = some Direction.LONG) :
    s.stop_loss ≤ (runState res s ps).stop_loss := by
  induction ps generalizing s with
  | nil => exact le_refl _
  | cons p t ih =>
    have hstep : runState res s (p :: t) = runState res (stepState res p s) t := rfl
    rcases stepState_long_cases res p s h with hcase | hcase
    · have hfields := trail_update_long_fields p s
      have hpos : (stepState res p s).position = some Direction.LONG := by
        rw [hcase, hfields.1, h]
      have hmono : s.stop_loss ≤ (stepState res p s).stop_loss := by
        rw [hcase]; exact hfields.2.2.2.2
      rw [hstep] at hopen ⊢
      exact le_trans hmono (ih (stepState res p s) hpos hopen)
    · exfalso
      rw [hstep, runState_flat res t _ hcase, hcase] at hopen
      exact Option.noConfusion hopen

/-- Monotone tightening over a whole tick sequence, SHORT side: while the
position stays open the stop never rises. -/
lemma runState_short_mono (res : GatewayOutcome) (ps : List ℚ) (s : CState)
    (h : s.position = some Direction.SHORT)
    (hopen : (runState res s ps).position = some Direction.SHORT) :
    (runState res s ps).stop_loss ≤ s.stop_loss := by
  induction ps generalizing s with
  | nil => exact le_refl _
  | cons p t ih =>
    have hstep : runState res s (p :: t) = runState res (stepState res p s) t := rfl
    rcases stepState_short_cases res p s h with hcase | hcase
    · have hfields := trail_update_short_fields p s
      have hpos : (stepState res p s).position = some Direction.SHORT := by
        rw [hcase, hfields.1, h]
      have hmono : (stepState res p s).stop_loss ≤ s.stop_loss := by
        rw [hcase]; exact hfields.2.2.2.2
      rw [hstep] at hopen ⊢
      exact le_trans (ih (stepState res p s) hpos hopen) hmono
    · exfalso
      rw [hstep, runState_flat res t _ hcase, hcase] at hopen
      exact Option.noConfusion hopen

/-- Case analysis of the LONG trailing update: no new high leaves the
state alone; a new high advances the extreme; the stop moves only in the
third case, when the excursion reached the activation threshold and the
candidate stop is strictly tighter. -/
lemma trail_update_long_spec (p : ℚ) (s : CState) :
    (trail_update_long p s = s ∧ ¬ p > s.highest_price) ∨
    (trail_update_long p s = { s with highest_price := p } ∧ p > s.highest_price) ∨
    (trail_update_long p s = { s with highest_price := p, stop_loss := p - TSL_TRAIL_POINTS } ∧
      p > s.highest_price ∧ p - s.entry_price ≥ TSL_ACTIVATION_POINTS ∧
      p - TSL_TRAIL_POINTS > s.stop_loss) := by
  simp only [trail_update_long]
  split_ifs with h1 h2 h3
  · right; right; exact ⟨rfl, h1, h2, h3⟩
  · right; left; exact ⟨rfl, h1⟩
  · right; left; exact ⟨rfl, h1⟩
  · left; exact ⟨rfl, h1⟩

/-- Case analysis of the SHORT trailing update, mirror of the LONG one. -/
lemma trail_update_short_spec (p : ℚ) (s : CState) :
    (trail_update_short p s = s ∧ ¬ p < s.lowest_price) ∨
    (trail_update_short p s = { s with lowest_price := p } ∧ p < s.lowest_price) ∨
    (trail_update_short p s = { s with lowest_price := p, stop_loss := p + TSL_TRAIL_POINTS } ∧
      p < s.lowest_price ∧ s.entry_price - p ≥ TSL_ACTIVATION_POINTS ∧
      p + TSL_TRAIL_POINTS < s.stop_loss) := by
  simp only [trail_update_short]
  split_ifs with h1 h2 h3
  · right; right; exact ⟨rfl, h1, h2, h3⟩
  · right; left; exact ⟨rfl, h1⟩
  · right; left; exact ⟨rfl, h1⟩
  · left; exact ⟨rfl, h1⟩

/-- When a tick on a LONG position leaves it open and moves the stop, the
move is exactly the trailing rule: the extreme has advanced to the tick
price, the excursion from the entry reference has reached the activation
threshold, the new stop is the extreme minus the trail distance, and it
is strictly above the old stop. -/
lemma stepState_long_trail_only_when (res : GatewayOutcome) (p : ℚ) (s : CState)
    (h : s.position = some Direction.LONG)
    (hopen : (stepState res p s).position = some Direction.LONG)
    (hmoved : (stepState res p s).stop_loss ≠ s.stop_loss) :
    (stepState res p s).highest_price = p ∧
    (stepState res p s).highest_price - s.entry_price ≥ TSL_ACTIVATION_POINTS ∧
    (stepState res p s).stop_loss = (stepState res p s).highest_price - TSL_TRAIL_POINTS ∧
    s.stop_loss < (stepState res p s).stop_loss := by
  rcases stepState_long_cases res p s h with hcase | hcase
  · rcases trail_update_long_spec p s with ⟨heq, _⟩ | ⟨heq, _⟩ | ⟨heq, _, hact, htight⟩
    · rw [hcase, heq] at hmoved; exact absurd rfl hmoved
    · rw [hcase, heq] at hmoved; exact absurd rfl hmoved
    · rw [hcase, heq]
      refine ⟨rfl, by simpa using hact, rfl, by simpa using htight⟩
  · rw [hcase] at hopen; exact absurd hopen (by simp)

/-- When a tick on a SHORT position leaves it open and moves the stop,
the move is exactly the trailing rule on the short side. -/
lemma stepState_short_trail_only_when (res : GatewayOutcome) (p : ℚ) (s : CState)
    (h : s.position = some Direction.SHORT)
    (hopen : (stepState res p s).position = some Direction.SHORT)
    (hmoved : (stepState res p s).stop_loss ≠ s.stop_loss) :
    (stepState res p s).lowest_price = p ∧
    s.entry_price - (stepState res p s).lowest_price ≥ TSL_ACTIVATION_POINTS ∧
    (stepState res p s).stop_loss = (stepState res p s).lowest_price + TSL_TRAIL_POINTS ∧
    (stepState res p s).stop_loss < s.stop_loss := by
  rcases stepState_short_cases res p s h with hcase | hcase
  · rcases trail_update_short_spec p s with ⟨heq, _⟩ | ⟨heq, _⟩ | ⟨heq, _, hact, htight⟩
    · rw [hcase, heq] at hmoved; exact absurd rfl hmoved
    · rw [hcase, heq] at hmoved; exact absurd rfl hmoved
    · rw [hcase, heq]
      refine ⟨rfl, by simpa using hact, rfl, by simpa using htight⟩
  · rw [hcase] at hopen; exact absurd hopen (by simp)

end Confluence

namespace Hedge

/-- Trailing update of a BULL_SPREAD position never touches position,
entry, target or leg symbols, and never lowers the stop. -/
lemma trail_update_bull_fields (p : ℚ) (s : HState) :
    (trail_update_bull p s).position = s.position ∧
    (trail_update_bull p s).entry_price = s.entry_price ∧
    (trail_update_bull p s).take_profit = s.take_profit ∧
    (trail_update_bull p s).traded_long_symbol = s.traded_long_symbol ∧
    (trail_update_bull p s).traded_short_symbol = s.traded_short_symbol ∧
    s.stop_loss ≤ (trail_update_bull p s).stop_loss := by
  simp only [trail_update_bull]
  split_ifs with h1 h2 h3 <;> simp <;> linarith

/-- Trailing update of a BEAR_SPREAD position never touches position,
entry, target or leg symbols, and never raises the stop. -/
lemma trail_update_bear_fields (p : ℚ) (s : HState) :
    (trail_update_bear p s).position = s.position ∧
    (trail_update_bear p s).entry_price = s.entry_price ∧
    (trail_update_bear p s).take_profit = s.take_profit ∧
    (trail_update_bear p s).traded_long_symbol = s.traded_long_symbol ∧
    (trail_update_bear p s).traded_short_symbol = s.traded_short_symbol ∧
    (trail_update_bear p s).stop_loss ≤ s.stop_loss := by
  simp only [trail_update_bear]
  split_ifs with h1 h2 h3 <;> simp <;> linarith

/-- Case analysis of the BULL_SPREAD trailing update. -/
lemma trail_update_bull_spec (p : ℚ) (s : HState) :
    (trail_update_bull p s = s ∧ ¬ p > s.highest_price) ∨
    (trail_update_bull p s = { s with highest_price := p } ∧ p > s.highest_price) ∨
    (trail_update_bull p s = { s with highest_price := p, stop_loss := p - TSL_TRAIL_POINTS } ∧
      p > s.highest_price ∧ p - s.entry_price ≥ TSL_ACTIVATION_POINTS ∧
      p - TSL_TRAIL_POINTS > s.stop_loss) := by
  simp only [trail_update_bull]
  split_ifs with h1 h2 h3
  · right; right; exact ⟨rfl, h1, h2, h3⟩
  · right; left; exact ⟨rfl, h1⟩
  · right; left; exact ⟨rfl, h1⟩
  · left; exact ⟨rfl, h1⟩

/-- Case analysis of the BEAR_SPREAD trailing update. -/
lemma trail_update_bear_spec (p : ℚ) (s : HState) :
    (trail_update_bear p s = s ∧ ¬ p < s.lowest_price) ∨
    (trail_update_bear p s = { s with lowest_price := p } ∧ p < s.lowest_price) ∨
    (trail_update_bear p s = { s with lowest_price := p, stop_loss := p + TSL_TRAIL_POINTS } ∧
      p < s.lowest_price ∧ s.entry_price - p ≥ TSL_ACTIVATION_POINTS ∧
      p + TSL_TRAIL_POINTS < s.stop_loss) := by
  simp only [trail_update_bear]
  split_ifs with h1 h2 h3
  · right; right; exact ⟨rfl, h1, h2, h3⟩
  · right; left; exact ⟨rfl, h1⟩
  · right; left; exact ⟨rfl, h1⟩
  · left; exact ⟨rfl, h1⟩

/-- A hedge tick on a BULL_SPREAD position either keeps the
trailing-updated state or closes the position. -/
lemma stepState_bull_cases (r1 r2 : GatewayOutcome) (p : ℚ) (s : HState)
    (h : s.position = some HPos.BULL_SPREAD) :
    stepState r1 r2 p s = trail_update_bull p s ∨ (stepState r1 r2 p s).position = none := by
  simp only [stepState, check_exit_conditions, h]
  split_ifs <;> simp [close_position]

/-- A hedge tick on a BEAR_SPREAD position either keeps the
trailing-updated state or closes the position. -/
lemma stepState_bear_cases (r1 r2 : GatewayOutcome) (p : ℚ) (s : HState)
    (h : s.position = some HPos.BEAR_SPREAD) :
    stepState r1 r2 p s = trail_update_bear p s ∨ (stepState r1 r2 p s).position = none := by
  simp only [stepState, check_exit_conditions, h]
  split_ifs <;> simp [close_position]

/-- A hedge tick with no position held changes nothing. -/
lemma stepState_hedge_flat (r1 r2 : GatewayOutcome) (p : ℚ) (s : HState)
    (h : s.position = none) : stepState r1 r2 p s = s := by
  simp only [stepState, check_exit_conditions, h]

/-- A hedge tick sequence starting flat stays at the same state. -/
lemma runState_hedge_flat (r1 r2 : GatewayOutcome) (ps : List ℚ) (s : HState)
    (h : s.position = none) : runState r1 r2 s ps = s := by
  induction ps generalizing s with
  | nil => rfl
  | cons p t ih =>
    show runState r1 r2 (stepState r1 r2 p s) t = s
    rw [stepState_hedge_flat r1 r2 p s h, ih s h]

/-- Monotone tightening over a whole hedge tick sequence, bull side. -/
lemma runState_bull_mono (r1 r2 : GatewayOutcome) (ps : List ℚ) (s : HState)
    (h : s.position = some HPos.BULL_SPREAD)
    (hopen : (runState r1 r2 s ps).position = some HPos.BULL_SPREAD) :
    s.stop_loss ≤ (runState r1 r2 s ps).stop_loss := by
  induction ps generalizing s with
  | nil => exact le_refl _
  | cons p t ih =>
    have hstep : runState r1 r2 s (p :: t) = runState r1 r2 (stepState r1 r2 p s) t := rfl
    rcases stepState_bull_cases r1 r2 p s h with hcase | hcase
    · have hfields := trail_update_bull_fields p s
      have hpos : (stepState r1 r2 p s).position = some HPos.BULL_SPREAD := by
        rw [hcase, hfields.1, h]
      have hmono : s.stop_loss ≤ (stepState r1 r2 p s).stop_loss := by
        rw [hcase]; exact hfields.2.2.2.2.2
      rw [hstep] at hopen ⊢
      exact le_trans hmono (ih (stepState r1 r2 p s) hpos hopen)
    · exfalso
      rw [hstep, runState_hedge_flat r1 r2 t _ hcase, hcase] at hopen
      exact Option.noConfusion hopen

/-- Monotone tightening over a whole hedge tick sequence, bear side. -/
lemma runState_bear_mono (r1 r2 : GatewayOutcome) (ps : List ℚ) (s : HState)
    (h : s.position = some HPos.BEAR_SPREAD)
    (hopen : (runState r1 r2 s ps).position = some HPos.BEAR_SPREAD) :
    (runState r1 r2 s ps).stop_loss ≤ s.stop_loss := by
  induction ps generalizing s with
  | nil => exact le_refl _
  | cons p t ih =>
    have hstep : runState r1 r2 s (p :: t) = runState r1 r2 (stepState r1 r2 p s) t := rfl
    rcases stepState_bear_cases r1 r2 p s h with hcase | hcase
    · have hfields := trail_update_bear_fields p s
      have hpos : (stepState r1 r2 p s).position = some HPos.BEAR_SPREAD := by
        rw [hcase, hfields.1, h]
      have hmono : (stepState r1 r2 p s).stop_loss ≤ s.stop_loss := by
        rw [hcase]; exact hfields.2.2.2.2.2
      rw [hstep] at hopen ⊢
      exact le_trans (ih (stepState r1 r2 p s) hpos hopen) hmono
    · exfalso
      rw [hstep, runState_hedge_flat r1 r2 t _ hcase, hcase] at hopen
      exact Option.noConfusion hopen

/-- When a hedge tick on a BULL_SPREAD position leaves it open and moves
the stop, the move is exactly the trailing rule. -/
lemma stepState_bull_trail_only_when (r1 r2 : GatewayOutcome) (p : ℚ) (s : HState)
    (h : s.position = some HPos.BULL_SPREAD)
    (hopen : (stepState r1 r2 p s).position = some HPos.BULL_SPREAD)
    (hmoved : (stepState r1 r2 p s).stop_loss ≠ s.stop_loss) :
    (stepState r1 r2 p s).highest_price = p ∧
    (stepState r1 r2 p s).highest_price - s.entry_price ≥ TSL_ACTIVATION_POINTS ∧
    (stepState r1 r2 p s).stop_loss = (stepState r1 r2 p s).highest_price - TSL_TRAIL_POINTS ∧
    s.stop_loss < (stepState r1 r2 p s).stop_loss := by
  rcases stepState_bull_cases r1 r2 p s h with hcase | hcase
  · rcases trail_update_bull_spec p s with ⟨heq, _⟩ | ⟨heq, _⟩ | ⟨heq, _, hact, htight⟩
    · rw [hcase, heq] at hmoved; exact absurd rfl hmoved
    · rw [hcase, heq] at hmoved; exact absurd rfl hmoved
    · rw [hcase, heq]
      refine ⟨rfl, by simpa using hact, rfl, by simpa using htight⟩
  · rw [hcase] at hopen; exact absurd hopen (by simp)

/-- When a hedge tick on a BEAR_SPREAD position leaves it open and moves
the stop, the move is exactly the trailing rule on the short side. -/
lemma stepState_bear_trail_only_when (r1 r2 : GatewayOutcome) (p : ℚ) (s : HState)
    (h : s.position = some HPos.BEAR_SPREAD)
    (hopen : (stepState r1 r2 p s).position = some HPos.BEAR_SPREAD)
    (hmoved : (stepState r1 r2 p s).stop_loss ≠ s.stop_loss) :
    (stepState r1 r2 p s).lowest_price = p ∧
    s.entry_price - (stepState r1 r2 p s).lowest_price ≥ TSL_ACTIVATION_POINTS ∧
    (stepState r1 r2 p s).stop_loss = (stepState r1 r2 p s).lowest_price + TSL_TRAIL_POINTS ∧
    (stepState r1 r2 p s).stop_loss < s.stop_loss := by
  rcases stepState_bear_cases r1 r2 p s h with hcase | hcase
  · rcases trail_update_bear_spec p s with ⟨heq, _⟩ | ⟨heq, _⟩ | ⟨heq, _, hact, htight⟩
    · rw [hcase, heq] at hmoved; exact absurd rfl hmoved
    · rw [hcase, heq] at hmoved; exact absurd rfl hmoved
    · rw [hcase, heq]
      refine ⟨rfl, by simpa using hact, rfl, by simpa using htight⟩
  · rw [hcase] at hopen; exact absurd hopen (by simp)

end Hedge

namespace Confluence

/-- place_order always stores the computed option symbol, whatever the
gateway outcome, because the assignment precedes the call. -/
lemma place_order_symbol (sym : String) (side : Side) (price : ℚ)
    (res : GatewayOutcome) (s : CState) :
    (place_order sym side price res s).traded_option_symbol =
      some (get_option_symbol sym price side) := by
  cases res <;> cases side <;> rfl

/-- One exit tick preserves the leg invariant: a held position keeps its
recorded symbol; a close drops the position. -/
lemma stepState_leg_inv (res : GatewayOutcome) (p : ℚ) (s : CState)
    (hInv : s.position ≠ none → s.traded_option_symbol ≠ none) :
    (stepState res p s).position ≠ none → (stepState res p s).traded_option_symbol ≠ none := by
  cases hs : s.position with
  | none =>
    rw [stepState_flat res p s hs]
    exact hInv
  | some d =>
    cases d with
    | LONG =>
      rcases stepState_long_cases res p s hs with hcase | hcase
      · intro _
        rw [hcase, (trail_update_long_fields p s).2.2.2.1]
        exact hInv (by rw [hs]; exact fun h => Option.noConfusion h)
      · intro hpos
        exact absurd hcase hpos
    | SHORT =>
      rcases stepState_short_cases res p s hs with hcase | hcase
      · intro _
        rw [hcase, (trail_update_short_fields p s).2.2.2.1]
        exact hInv (by rw [hs]; exact fun h => Option.noConfusion h)
      · intro hpos
        exact absurd hcase hpos

/-- One engine operation preserves the leg invariant. -/
lemma applyCOp_leg_inv (sym : String) (s : CState) (op : COp)
    (hInv : s.position ≠ none → s.traded_option_symbol ≠ none) :
    (applyCOp sym s op).position ≠ none → (applyCOp sym s op).traded_option_symbol ≠ none := by
  cases op with
  | placeOrder side price res =>
    simp only [applyCOp]
    split_ifs with h
    · intro _
      rw [place_order_symbol]
      exact fun hc => Option.noConfusion hc
    · exact hInv
  | exitTick res price => exact stepState_leg_inv res price s hInv

/-- Every state reachable from a state satisfying the leg invariant still
satisfies it. -/
lemma runCOps_leg_inv (sym : String) (ops : List COp) (s : CState)
    (hInv : s.position ≠ none → s.traded_option_symbol ≠ none) :
    (runCOps sym s ops).position ≠ none → (runCOps sym s ops).traded_option_symbol ≠ none := by
  induction ops generalizing s with
  | nil => exact hInv
  | cons op t ih =>
    show (runCOps sym (applyCOp sym s op) t).position ≠ none →
      (runCOps sym (applyCOp sym s op) t).traded_option_symbol ≠ none
    exact ih (applyCOp sym s op) (applyCOp_leg_inv sym s op hInv)

end Confluence

/-- C1: while a position stays open across any tick sequence, the stop
only moves in the favorable direction — it never falls for a LONG
(bull spread) position and never rises for a SHORT (bear spread) one —
and a single tick moves it only by the trailing rule: the extreme has
advanced to the tick price, the excursion from the entry reference has
reached the activation threshold, and the new stop is the extreme minus
(plus) the trail distance and strictly tighter than the old stop. Both
bots are covered. -/
theorem C1_trailing_stop_never_loosens :
    (∀ (res : GatewayOutcome) (s : Confluence.CState) (ps : List ℚ),
       s.position = some Confluence.Direction.LONG →
       (Confluence.runState res s ps).position = some Confluence.Direction.LONG →
       s.stop_loss ≤ (Confluence.runState res s ps).stop_loss) ∧
    (∀ (res : GatewayOutcome) (s : Confluence.CState) (ps : List ℚ),
       s.position = some Confluence.Direction.SHORT →
       (Confluence.runState res s ps).position = some Confluence.Direction.SHORT →
       (Confluence.runState res s ps).stop_loss ≤ s.stop_loss) ∧
    (∀ (res : GatewayOutcome) (p : ℚ) (s : Confluence.CState),
       s.position = some Confluence.Direction.LONG →
       (Confluence.stepState res p s).position = some Confluence.Direction.LONG →
       (Confluence.stepState res p s).stop_loss ≠ s.stop_loss →
       (Confluence.stepState res p s).highest_price = p ∧
       (Confluence.stepState res p s).highest_price - s.entry_price ≥
         Confluence.TSL_ACTIVATION_POINTS ∧
       (Confluence.stepState res p s).stop_loss =
         (Confluence.stepState res p s).highest_price - Confluence.TSL_TRAIL_POINTS ∧
       s.stop_loss < (Confluence.stepState res p s).stop_loss) ∧
    (∀ (res : GatewayOutcome) (p : ℚ) (s : Confluence.CState),
       s.position = some Confluence.Direction.SHORT →
       (Confluence.stepState res p s).position = some Confluence.Direction.SHORT →
       (Confluence.stepState res p s).stop_loss ≠ s.stop_loss →
       (Confluence.stepState res p s).lowest_price = p ∧
       s.entry_price - (Confluence.stepState res p s).lowest_price ≥
         Confluence.TSL_ACTIVATION_POINTS ∧
       (Confluence.stepState res p s).stop_loss =
         (Confluence.stepState res p s).lowest_price + Confluence.TSL_TRAIL_POINTS ∧
       (Confluence.stepState res p s).stop_loss < s.stop_loss) ∧
    (∀ (r1 r2 : GatewayOutcome) (s : Hedge.HState) (ps : List ℚ),
       s.position = some Hedge.HPos.BULL_SPREAD →
       (Hedge.runState r1 r2 s ps).position = some Hedge.HPos.BULL_SPREAD →
       s.stop_loss ≤ (Hedge.runState r1 r2 s ps).stop_loss) ∧
    (∀ (r1 r2 : GatewayOutcome) (s : Hedge.HState) (ps : List ℚ),
       s.position = some Hedge.HPos.BEAR_SPREAD →
       (Hedge.runState r1 r2 s ps).position = some Hedge.HPos.BEAR_SPREAD →
       (Hedge.runState r1 r2 s ps).stop_loss ≤ s.stop_loss) ∧
    (∀ (r1 r2 : GatewayOutcome) (p : ℚ) (s : Hedge.HState),
       s.position = some Hedge.HPos.BULL_SPREAD →
       (Hedge.stepState r1 r2 p s).position = some Hedge.HPos.BULL_SPREAD →
       (Hedge.stepState r1 r2 p s).stop_loss ≠ s.stop_loss →
       (Hedge.stepState r1 r2 p s).highest_price = p ∧
       (Hedge.stepState r1 r2 p s).highest_price - s.entry_price ≥
         Hedge.TSL_ACTIVATION_POINTS ∧
       (Hedge.stepState r1 r2 p s).stop_loss =
         (Hedge.stepState r1 r2 p s).highest_price - Hedge.TSL_TRAIL_POINTS ∧
       s.stop_loss < (Hedge.stepState r1 r2 p s).stop_loss) ∧
    (∀ (r1 r2 : GatewayOutcome) (p : ℚ) (s : Hedge.HState),
       s.position = some Hedge.HPos.BEAR_SPREAD →
       (Hedge.stepState r1 r2 p s).position = some Hedge.HPos.BEAR_SPREAD →
       (Hedge.stepState r1 r2 p s).stop_loss ≠ s.stop_loss →
       (Hedge.stepState r1 r2 p s).lowest_price = p ∧
       s.entry_price - (Hedge.stepState r1 r2 p s).lowest_price ≥
         Hedge.TSL_ACTIVATION_POINTS ∧
       (Hedge.stepState r1 r2 p s).stop_loss =
         (Hedge.stepState r1 r2 p s).lowest_price + Hedge.TSL_TRAIL_POINTS ∧
       (Hedge.stepState r1 r2 p s).stop_loss < s.stop_loss) := by
  refine ⟨?_, ?_, ?_, ?_, ?_, ?_, ?_, ?_⟩
  · exact fun res s ps h hopen => Confluence.runState_long_mono res ps s h hopen
  · exact fun res s ps h hopen => Confluence.runState_short_mono res ps s h hopen
  · exact fun res p s h hopen hmoved =>
      Confluence.stepState_long_trail_only_when res p s h hopen hmoved
  · exact fun res p s h hopen hmoved =>
      Confluence.stepState_short_trail_only_when res p s h hopen hmoved
  · exact fun r1 r2 s ps h hopen => Hedge.runState_bull_mono r1 r2 ps s h hopen
  · exact fun r1 r2 s ps h hopen => Hedge.runState_bear_mono r1 r2 ps s h hopen
  · exact fun r1 r2 p s h hopen hmoved =>
      Hedge.stepState_bull_trail_only_when r1 r2 p s h hopen hmoved
  · exact fun r1 r2 p s h hopen hmoved =>
      Hedge.stepState_bear_trail_only_when r1 r2 p s h hopen hmoved

/-- C1 witness: the LONG monotonicity applied to the concrete C5 entry
over the ticks 105, 121, on which the position stays open and the stop
trails from 80 to 111. -/
theorem C1_witness :
    c5Entry.stop_loss ≤
      (Confluence.runState GatewayOutcome.success c5Entry [105, 121]).stop_loss := by
  refine C1_trailing_stop_never_loosens.1 GatewayOutcome.success c5Entry [105, 121] ?_ ?_
  · norm_num [c5Entry, Confluence.place_order, Confluence.initCState]
  · norm_num [c5Entry, Confluence.runState, Confluence.stepState,
      Confluence.check_exit_conditions, Confluence.trail_update_long,
      Confluence.close_position, Confluence.place_order, Confluence.initCState,
      Confluence.STOP_LOSS_POINTS, Confluence.TAKE_PROFIT_POINTS,
      Confluence.TSL_ACTIVATION_POINTS, Confluence.TSL_TRAIL_POINTS]

/-- C4: the claim says legs are recorded if and only if a position is
held, over all reachable states. After a single failed PRIMARY placement
from the initial state — a reachable state — the machine is flat and yet
the option symbol is recorded, refuting the only-if direction. -/
theorem C4_counterexample :
    (Confluence.runCOps "NIFTY30DEC25FUT" Confluence.initCState
      [Confluence.COp.placeOrder Side.BUY 26000 GatewayOutcome.failStatus]).position = none ∧
    (Confluence.runCOps "NIFTY30DEC25FUT" Confluence.initCState
      [Confluence.COp.placeOrder Side.BUY 26000 GatewayOutcome.failStatus]).traded_option_symbol
      ≠ none := by
  constructor
  · simp [Confluence.runCOps, Confluence.applyCOp, Confluence.place_order,
      Confluence.initCState]
  · simp [Confluence.runCOps, Confluence.applyCOp, Confluence.place_order,
      Confluence.initCState]

/-- C4 (amended): over every sequence of engine operations from the
initial state, a held position implies a recorded leg symbol; the
converse fails, because a failed placement leaves the pre-recorded symbol
registered while flat until the next close or entry overwrites it. -/
theorem C4_leg_invariant (sym : String) (ops : List Confluence.COp) :
    (Confluence.runCOps sym Confluence.initCState ops).position ≠ none →
    (Confluence.runCOps sym Confluence.initCState ops).traded_option_symbol ≠ none := by
  refine Confluence.runCOps_leg_inv sym ops Confluence.initCState ?_
  intro h
  exact absurd rfl h

/-- C4 witness: the invariant applied to the operation sequence of one
successful entry. -/
theorem C4_witness :
    (Confluence.runCOps "NIFTY30DEC25FUT" Confluence.initCState
      [Confluence.COp.placeOrder Side.BUY 26000 GatewayOutcome.success]).traded_option_symbol
      ≠ none := by
  refine C4_leg_invariant "NIFTY30DEC25FUT"
    [Confluence.COp.placeOrder Side.BUY 26000 GatewayOutcome.success] ?_
  simp [Confluence.runCOps, Confluence.applyCOp, Confluence.place_order,
    Confluence.initCState]

/-- C6: on any tick where the price has crossed both the stop-loss and
the take-profit level, the close that fires is the stop-loss close, never
the take-profit close — the stop-loss comparison sits first and the
take-profit one in its elif, and a tick emits at most one close. Both
bots and both directions are covered. -/
theorem C6_stop_loss_checked_first :
    (∀ (res : GatewayOutcome) (p : ℚ) (s : Confluence.CState),
       s.position = some Confluence.Direction.LONG →
       p ≤ s.stop_loss → p ≥ s.take_profit →
       ∃ ev : Confluence.CloseEvent,
         (Confluence.check_exit_conditions res p s).2 = some ev ∧
         ev.reason = Confluence.CloseReason.STOP_LOSS) ∧
    (∀ (res : GatewayOutcome) (p : ℚ) (s : Confluence.CState),
       s.position = some Confluence.Direction.SHORT →
       p ≥ s.stop_loss → p ≤ s.take_profit →
       ∃ ev : Confluence.CloseEvent,
         (Confluence.check_exit_conditions res p s).2 = some ev ∧
         ev.reason = Confluence.CloseReason.STOP_LOSS) ∧
    (∀ (r1 r2 : GatewayOutcome) (p : ℚ) (s : Hedge.HState),
       s.position = some Hedge.HPos.BULL_SPREAD →
       p ≤ s.stop_loss → p ≥ s.take_profit →
       ∃ ev : Hedge.HCloseEvent,
         (Hedge.check_exit_conditions r1 r2 p s).2 = some ev ∧
         ev.reason = Hedge.HCloseReason.STOP_LOSS) ∧
    (∀ (r1 r2 : GatewayOutcome) (p : ℚ) (s : Hedge.HState),
       s.position = some Hedge.HPos.BEAR_SPREAD →
       p ≥ s.stop_loss → p ≤ s.take_profit →
       ∃ ev : Hedge.HCloseEvent,
         (Hedge.check_exit_conditions r1 r2 p s).2 = some ev ∧
         ev.reason = Hedge.HCloseReason.STOP_LOSS) := by
  refine ⟨?_, ?_, ?_, ?_⟩
  · intro res p s h hsl htp
    have hmono := (Confluence.trail_update_long_fields p s).2.2.2.2
    have hcross : p ≤ (Confluence.trail_update_long p s).stop_loss := le_trans hsl hmono
    simp only [Confluence.check_exit_conditions, h]
    rw [if_pos hcross]
    exact ⟨_, rfl, rfl⟩
  · intro res p s h hsl htp
    have hmono := (Confluence.trail_update_short_fields p s).2.2.2.2
    have hcross : (Confluence.trail_update_short p s).stop_loss ≤ p := le_trans hmono hsl
    simp only [Confluence.check_exit_conditions, h]
    rw [if_pos hcross]
    exact ⟨_, rfl, rfl⟩
  · intro r1 r2 p s h hsl htp
    have hmono := (Hedge.trail_update_bull_fields p s).2.2.2.2.2
    have hcross : p ≤ (Hedge.trail_update_bull p s).stop_loss := le_trans hsl hmono
    simp only [Hedge.check_exit_conditions, h]
    rw [if_pos hcross]
    exact ⟨_, rfl, rfl⟩
  · intro r1 r2 p s h hsl htp
    have hmono := (Hedge.trail_update_bear_fields p s).2.2.2.2.2
    have hcross : (Hedge.trail_update_bear p s).stop_loss ≤ p := le_trans hmono hsl
    simp only [Hedge.check_exit_conditions, h]
    rw [if_pos hcross]
    exact ⟨_, rfl, rfl⟩

/-- C6 witness: a LONG state whose stop (95) sits above its target (90)
so a tick at 92 crosses both levels; the close that fires is the
stop-loss close. -/
theorem C6_witness :
    ∃ ev : Confluence.CloseEvent,
      (Confluence.check_exit_conditions GatewayOutcome.success 92
        { position := some Confluence.Direction.LONG
          entry_price := 100
          stop_loss := 95
          take_profit := 90
          highest_price := 100
          lowest_price := 0
          traded_option_symbol := some "X" }).2 = some ev ∧
      ev.reason = Confluence.CloseReason.STOP_LOSS := by
  refine C6_stop_loss_checked_first.1 GatewayOutcome.success 92 _ rfl ?_ ?_
  · norm_num
  · norm_num

/-- C2: the claim says a failed PRIMARY placement ends the entry in FLAT
with zero legs recorded and no traded instrument symbol registered. In
confluence_bot the traded option symbol is stored before the gateway call
and therefore remains registered after the failure: at a concrete failed
entry the state is flat and yet a symbol is recorded. -/
theorem C2_counterexample :
    (Confluence.place_order "NIFTY30DEC25FUT" Side.BUY 26000 GatewayOutcome.failStatus
      Confluence.initCState).position = none ∧
    (Confluence.place_order "NIFTY30DEC25FUT" Side.BUY 26000 GatewayOutcome.failStatus
      Confluence.initCState).traded_option_symbol ≠ none := by
  constructor
  · simp [Confluence.place_order, Confluence.initCState]
  · simp [Confluence.place_order, Confluence.initCState]

/-- C2 (amended): when the PRIMARY placement returns a non-success status
or raises, the machine ends the entry attempt flat: direction stays as it
was and entry, stop, target and both extremes are unchanged. In hedge_bot
nothing at all is recorded; in confluence_bot the option symbol has
already been computed and stored in traded_option_symbol before the
gateway call and remains registered after the failure. -/
theorem C2_primary_failure_flat :
    (∀ (sym : String) (side : Side) (price : ℚ) (res : GatewayOutcome)
       (s : Confluence.CState), res ≠ GatewayOutcome.success →
       (Confluence.place_order sym side price res s).position = s.position ∧
       (Confluence.place_order sym side price res s).entry_price = s.entry_price ∧
       (Confluence.place_order sym side price res s).stop_loss = s.stop_loss ∧
       (Confluence.place_order sym side price res s).take_profit = s.take_profit ∧
       (Confluence.place_order sym side price res s).highest_price = s.highest_price ∧
       (Confluence.place_order sym side price res s).lowest_price = s.lowest_price ∧
       (Confluence.place_order sym side price res s).traded_option_symbol =
         some (Confluence.get_option_symbol sym price side)) ∧
    (∀ (sym : String) (side : Side) (price : ℚ) (res1 res2 : GatewayOutcome)
       (s : Hedge.HState), res1 ≠ GatewayOutcome.success →
       Hedge.place_order sym side price res1 res2 s = s) := by
  constructor
  · intro sym side price res s hres
    cases res with
    | success => exact absurd rfl hres
    | failStatus => exact ⟨rfl, rfl, rfl, rfl, rfl, rfl, rfl⟩
    | raised => exact ⟨rfl, rfl, rfl, rfl, rfl, rfl, rfl⟩
  · intro sym side price res1 res2 s hres
    cases res1 with
    | success => exact absurd rfl hres
    | failStatus => rfl
    | raised => rfl

/-- C2 witness: the amended statement applied to the concrete failed
entry of the counterexample. -/
theorem C2_witness :
    (Confluence.place_order "NIFTY30DEC25FUT" Side.BUY 26000 GatewayOutcome.failStatus
      Confluence.initCState).traded_option_symbol =
      some (Confluence.get_option_symbol "NIFTY30DEC25FUT" 26000 Side.BUY) ∧
    Hedge.place_order "NIFTY30DEC25FUT" Side.BUY 26000 GatewayOutcome.failStatus
      GatewayOutcome.success Hedge.initHState = Hedge.initHState := by
  constructor
  · exact (C2_primary_failure_flat.1 "NIFTY30DEC25FUT" Side.BUY 26000
      GatewayOutcome.failStatus Confluence.initCState (by decide)).2.2.2.2.2.2
  · exact C2_primary_failure_flat.2 "NIFTY30DEC25FUT" Side.BUY 26000
      GatewayOutcome.failStatus GatewayOutcome.success Hedge.initHState (by decide)

/-- C3: the claim says a HEDGE-leg failure after a successful PRIMARY
always leaves an open degraded position, never FLAT. When the HEDGE call
raises (a failure mode the spec folds into failed placement), the except
handler skips the position assignment: the entry ends with no position
set while the PRIMARY leg stays recorded. -/
theorem C3_counterexample :
    (Hedge.place_order "NIFTY30DEC25FUT" Side.BUY 26000 GatewayOutcome.success
      GatewayOutcome.raised Hedge.initHState).position = none ∧
    (Hedge.place_order "NIFTY30DEC25FUT" Side.BUY 26000 GatewayOutcome.success
      GatewayOutcome.raised Hedge.initHState).traded_long_symbol ≠ none := by
  constructor
  · simp [Hedge.place_order, Hedge.initHState]
  · simp [Hedge.place_order, Hedge.initHState]

/-- C3 (amended): when the HEDGE leg returns a non-success status after
the PRIMARY succeeded, the machine opens a degraded position holding
exactly the PRIMARY leg — never flat and never two legs; when the HEDGE
call raises instead, the position stays unset while the PRIMARY leg
remains recorded. -/
theorem C3_degraded_position :
    (∀ (sym : String) (side : Side) (price : ℚ) (s : Hedge.HState),
       s.traded_short_symbol = none →
       (Hedge.place_order sym side price GatewayOutcome.success GatewayOutcome.failStatus
          s).position =
         some (if side = Side.BUY then Hedge.HPos.BULL_SPREAD else Hedge.HPos.BEAR_SPREAD) ∧
       (Hedge.place_order sym side price GatewayOutcome.success GatewayOutcome.failStatus
          s).traded_long_symbol ≠ none ∧
       (Hedge.place_order sym side price GatewayOutcome.success GatewayOutcome.failStatus
          s).traded_short_symbol = none) ∧
    (∀ (sym : String) (side : Side) (price : ℚ) (s : Hedge.HState),
       (Hedge.place_order sym side price GatewayOutcome.success GatewayOutcome.raised
          s).position = s.position ∧
       (Hedge.place_order sym side price GatewayOutcome.success GatewayOutcome.raised
          s).traded_long_symbol ≠ none ∧
       (Hedge.place_order sym side price GatewayOutcome.success GatewayOutcome.raised
          s).traded_short_symbol = s.traded_short_symbol) := by
  constructor
  · intro sym side price s hshort
    refine ⟨rfl, by simp [Hedge.place_order], hshort⟩
  · intro sym side price s
    exact ⟨rfl, by simp [Hedge.place_order], rfl⟩

/-- C3 witness: the degraded-entry statement applied to a concrete entry
from the flat initial state. -/
theorem C3_witness :
    (Hedge.place_order "NIFTY30DEC25FUT" Side.BUY 26000 GatewayOutcome.success
      GatewayOutcome.failStatus Hedge.initHState).position =
      some (if Side.BUY = Side.BUY then Hedge.HPos.BULL_SPREAD else Hedge.HPos.BEAR_SPREAD) ∧
    (Hedge.place_order "NIFTY30DEC25FUT" Side.BUY 26000 GatewayOutcome.success
      GatewayOutcome.failStatus Hedge.initHState).traded_short_symbol = none := by
  have h := C3_degraded_position.1 "NIFTY30DEC25FUT" Side.BUY 26000 Hedge.initHState rfl
  exact ⟨h.1, h.2.2⟩

/-- C5: a LONG entry at reference 100 (stop 80, target 150) fed the tick
sequence 100, 105, 115, 121, 118, 90 trails the stop to 111 on the 121
tick, fires no close on the first five ticks, and closes on the 90 tick
as a stop loss with the trailed level 111 in force — not the original 80
(at 80 the 90 tick would not have triggered at all). -/
theorem C5_trailing_stop_scenario :
    c5Entry.stop_loss = 80 ∧ c5Entry.take_profit = 150 ∧
    (Confluence.runTicks GatewayOutcome.success c5Entry [100, 105, 115, 121, 118]).2 = [] ∧
    (Confluence.runTicks GatewayOutcome.success c5Entry
        [100, 105, 115, 121, 118]).1.position = some Confluence.Direction.LONG ∧
    (Confluence.runTicks GatewayOutcome.success c5Entry
        [100, 105, 115, 121, 118]).1.stop_loss = 111 ∧
    (Confluence.runTicks GatewayOutcome.success c5Entry [100, 105, 115, 121, 118, 90]).2 =
      [{ reason := Confluence.CloseReason.STOP_LOSS, trigger := 90, sl_level := 111 }] ∧
    (Confluence.runTicks GatewayOutcome.success c5Entry
        [100, 105, 115, 121, 118, 90]).1.position = none := by
  refine ⟨?_, ?_, ?_, ?_, ?_, ?_, ?_⟩ <;>
    norm_num [c5Entry, Confluence.runTicks, Confluence.check_exit_conditions,
      Confluence.trail_update_long, Confluence.close_position, Confluence.place_order,
      Confluence.initCState, Confluence.STOP_LOSS_POINTS, Confluence.TAKE_PROFIT_POINTS,
      Confluence.TSL_ACTIVATION_POINTS, Confluence.TSL_TRAIL_POINTS]

/-- C7: on the degraded entry (PRIMARY filled, HEDGE returned a
non-success status) the source records only position and entry price:
stop loss, take profit and the trailing extreme keep their stale values
(0 from the initial state) instead of being computed from the reference
price, so the very next exit tick at 26001 closes the degraded position
immediately as a take profit against the level 0. -/
theorem C7_degraded_entry_missing_levels :
    degradedEntry.position = some Hedge.HPos.BULL_SPREAD ∧
    degradedEntry.entry_price = 26000 ∧
    degradedEntry.stop_loss = 0 ∧
    degradedEntry.take_profit = 0 ∧
    degradedEntry.highest_price = 0 ∧
    degradedEntry.stop_loss ≠ 26000 - Hedge.STOP_LOSS_POINTS ∧
    degradedEntry.take_profit ≠ 26000 + Hedge.TAKE_PROFIT_POINTS ∧
    degradedEntry.highest_price ≠ 26000 ∧
    (Hedge.check_exit_conditions GatewayOutcome.success GatewayOutcome.success 26001
        degradedEntry).2 =
      some { reason := Hedge.HCloseReason.TAKE_PROFIT, trigger := 26001, sl_level := 0 } := by
  refine ⟨?_, ?_, ?_, ?_, ?_, ?_, ?_, ?_, ?_⟩ <;>
    norm_num [degradedEntry, Hedge.place_order, Hedge.initHState,
      Hedge.check_exit_conditions, Hedge.trail_update_bull, Hedge.close_position,
      Hedge.STOP_LOSS_POINTS, Hedge.TAKE_PROFIT_POINTS,
      Hedge.TSL_ACTIVATION_POINTS, Hedge.TSL_TRAIL_POINTS]

/-- C8: the claim says a failed leg close leaves the machine in EXITING
with the legs still recorded, to be retried next tick. The source resets
everything unconditionally: closing the concrete open spread with both
exit calls failing still clears the position and both legs. -/
theorem C8_counterexample :
    (Hedge.close_position GatewayOutcome.failStatus GatewayOutcome.failStatus
      openSpread).position = none ∧
    (Hedge.close_position GatewayOutcome.failStatus GatewayOutcome.failStatus
      openSpread).traded_long_symbol = none ∧
    (Hedge.close_position GatewayOutcome.failStatus GatewayOutcome.failStatus
      openSpread).traded_short_symbol = none := by
  exact ⟨rfl, rfl, rfl⟩

/-- C8 (amended): when a leg-close order fails or raises, the failure is
only logged — close_position nevertheless clears the position, both leg
records and the stop and target levels immediately and unconditionally,
in hedge_bot and confluence_bot alike; there is no EXITING state and no
retry of the failed leg. -/
theorem C8_close_always_resets :
    (∀ (r1 r2 : GatewayOutcome) (s : Hedge.HState),
       (Hedge.close_position r1 r2 s).position = none ∧
       (Hedge.close_position r1 r2 s).traded_long_symbol = none ∧
       (Hedge.close_position r1 r2 s).traded_short_symbol = none ∧
       (Hedge.close_position r1 r2 s).entry_price = 0 ∧
       (Hedge.close_position r1 r2 s).stop_loss = 0 ∧
       (Hedge.close_position r1 r2 s).take_profit = 0) ∧
    (∀ (res : GatewayOutcome) (s : Confluence.CState),
       (Confluence.close_position res s).position = none ∧
       (Confluence.close_position res s).traded_option_symbol = none ∧
       (Confluence.close_position res s).entry_price = 0 ∧
       (Confluence.close_position res s).stop_loss = 0 ∧
       (Confluence.close_position res s).take_profit = 0) := by
  constructor
  · intro r1 r2 s; exact ⟨rfl, rfl, rfl, rfl, rfl, rfl⟩
  · intro res s; exact ⟨rfl, rfl, rfl, rfl, rfl⟩

namespace Confluence

/-- Evaluation of the signal on the 41-candle sequence: the confluence
rule fires LONG (close 128 sits above the slow trend mean, the RSI is
deep after the decline, and the small recovery has just lifted the MACD
line above its signal line). -/
lemma entry_signal_cexC9 : entry_signal cexC9 = some Direction.LONG := by
  norm_num [entry_signal, cexC9, rsiLast, gains, losses, diffs, macdFold,
    macdStep, ewmLast, ewmStep, List.getLast?]

end Confluence

/-- C9: the claim says every candle sequence shorter than the 200-candle
trend window evaluates to NONE. The source only skips an empty candle
list; on this concrete 41-candle sequence the evaluation produces a LONG
entry decision. -/
theorem C9_counterexample :
    Confluence.cexC9.length < 200 ∧
    Confluence.entry_signal Confluence.cexC9 ≠ none ∧
    Confluence.entry_signal Confluence.cexC9 = some Confluence.Direction.LONG := by
  refine ⟨by norm_num [Confluence.cexC9], ?_, Confluence.entry_signal_cexC9⟩
  rw [Confluence.entry_signal_cexC9]
  exact fun h => Option.noConfusion h

/-- C9 (amended): signal evaluation returns NONE when the candle list is
empty — the only insufficient-data guard in the source; a nonempty list
with fewer candles than the 200-period trend window is evaluated over the
data that is there and can produce an entry decision, as the 41-candle
sequence shows. -/
theorem C9_insufficient_data :
    Confluence.entry_signal [] = none ∧
    Confluence.cexC9.length < 200 ∧
    Confluence.entry_signal Confluence.cexC9 = some Confluence.Direction.LONG := by
  exact ⟨rfl, by norm_num [Confluence.cexC9], Confluence.entry_signal_cexC9⟩

/-- Floor of an integer plus one half. -/
lemma floor_add_half (t : ℤ) : ⌊(t : ℚ) + 1/2⌋ = t := by
  rw [Int.floor_eq_iff]
  constructor
  · norm_num
  · push_cast
    linarith

/-- Python round at an exact half: the result is one of the two
neighbours and always the even one. -/
lemma pyRound_tie (t : ℤ) :
    (pyRound ((t : ℚ) + 1/2) = t ∨ pyRound ((t : ℚ) + 1/2) = t + 1) ∧
    pyRound ((t : ℚ) + 1/2) % 2 = 0 := by
  have hf : ⌊(t : ℚ) + 1/2⌋ = t := floor_add_half t
  simp only [pyRound, hf]
  have hr : (t : ℚ) + 1/2 - (t : ℚ) = 1/2 := by ring
  rw [hr, if_neg (by norm_num : ¬(1/2 : ℚ) < 1/2), if_neg (by norm_num : ¬(1/2 : ℚ) > 1/2)]
  by_cases ht : t % 2 = 0
  · rw [if_pos ht]
    exact ⟨Or.inl rfl, ht⟩
  · rw [if_neg ht]
    exact ⟨Or.inr rfl, by omega⟩

/-- Away from exact halves, Python round lands strictly within half a
unit of its argument. -/
lemma pyRound_dist_lt_half (q : ℚ) (h : q - (⌊q⌋ : ℚ) ≠ 1/2) :
    |q - (pyRound q : ℚ)| < 1/2 := by
  have h1 : (⌊q⌋ : ℚ) ≤ q := Int.floor_le q
  have h2 : q < ⌊q⌋ + 1 := Int.lt_floor_add_one q
  simp only [pyRound]
  split_ifs with c1 c2 c3
  · rw [abs_of_nonneg (by linarith)]
    linarith
  · push_cast
    rw [abs_of_nonpos (by linarith)]
    linarith
  · exact absurd (by linarith) h
  · exact absurd (by linarith) h

/-- Away from exact halves, Python round returns the strictly nearest
integer. -/
lemma pyRound_nearest (q : ℚ) (h : q - (⌊q⌋ : ℚ) ≠ 1/2) (k : ℤ)
    (hk : k ≠ pyRound q) :
    |q - (pyRound q : ℚ)| < |q - (k : ℚ)| := by
  have hn := pyRound_dist_lt_half q h
  have hz : pyRound q - k ≠ 0 := sub_ne_zero.mpr (Ne.symm hk)
  have hik : (1 : ℚ) ≤ |(pyRound q : ℚ) - (k : ℚ)| := by
    have h1 : (1 : ℤ) ≤ |pyRound q - k| := Int.one_le_abs hz
    have h2 : ((|pyRound q - k| : ℤ) : ℚ) = |(pyRound q : ℚ) - (k : ℚ)| := by
      push_cast
      rfl
    calc (1 : ℚ) ≤ ((|pyRound q - k| : ℤ) : ℚ) := by exact_mod_cast h1
      _ = |(pyRound q : ℚ) - (k : ℚ)| := h2
  have htri : |(pyRound q : ℚ) - (k : ℚ)| ≤ |(pyRound q : ℚ) - q| + |q - (k : ℚ)| :=
    abs_sub_le _ q _
  have hsym : |(pyRound q : ℚ) - q| = |q - (pyRound q : ℚ)| := abs_sub_comm _ _
  linarith

/-- C10: the strike selection rounds half to even. For an underlying
price that is an odd multiple of 25 — exactly midway between two adjacent
50-point strikes — the selected strike is the even multiple of 50 (a
multiple of 100), at distance exactly 25; for every other price the
selected strike is the strictly nearest multiple of 50. -/
theorem C10_strike_rounds_half_to_even :
    (∀ m : ℤ, Odd m →
       (∃ j : ℤ, atm_strike (25 * (m : ℚ)) = 100 * j) ∧
       |25 * (m : ℚ) - (atm_strike (25 * (m : ℚ)) : ℚ)| = 25) ∧
    (∀ price : ℚ, (¬ ∃ m : ℤ, Odd m ∧ price = 25 * (m : ℚ)) →
       ∀ k : ℤ, 50 * k ≠ atm_strike price →
         |price - (atm_strike price : ℚ)| < |price - 50 * (k : ℚ)|) := by
  constructor
  · intro m hm
    obtain ⟨t, ht⟩ := hm
    have hq : 25 * (m : ℚ) / 50 = (t : ℚ) + 1/2 := by
      rw [ht]
      push_cast
      ring
    have hp : 25 * (m : ℚ) = 50 * (t : ℚ) + 25 := by
      rw [ht]
      push_cast
      ring
    have htie := pyRound_tie t
    have h2 := htie.2
    unfold atm_strike
    rw [hq]
    constructor
    · exact ⟨pyRound ((t : ℚ) + 1/2) / 2, by omega⟩
    · rcases htie.1 with he | he
      · rw [he]
        have : 25 * (m : ℚ) - ((t * 50 : ℤ) : ℚ) = 25 := by
          rw [hp]
          push_cast
          ring
        rw [this]
        norm_num
      · rw [he]
        have : 25 * (m : ℚ) - (((t + 1) * 50 : ℤ) : ℚ) = -25 := by
          rw [hp]
          push_cast
          ring
        rw [this]
        norm_num
  · intro price hmid k hk
    have hx : price / 50 * 50 = price := div_mul_cancel₀ price (by norm_num)
    have hfr : price / 50 - (⌊price / 50⌋ : ℚ) ≠ 1/2 := by
      intro heq
      apply hmid
      refine ⟨2 * ⌊price / 50⌋ + 1, ⟨⌊price / 50⌋, by ring⟩, ?_⟩
      push_cast
      linarith
    have hkn : k ≠ pyRound (price / 50) := by
      intro heq
      apply hk
      rw [heq]
      unfold atm_strike
      ring
    have hlt := pyRound_nearest (price / 50) hfr k hkn
    unfold atm_strike
    have e1 : price - ((pyRound (price / 50) * 50 : ℤ) : ℚ) =
        50 * (price / 50 - (pyRound (price / 50) : ℚ)) := by
      push_cast
      linarith
    have e2 : price - 50 * (k : ℚ) = 50 * (price / 50 - (k : ℚ)) := by
      linarith
    rw [e1, e2, abs_mul, abs_mul]
    have h50 : |(50 : ℚ)| = 50 := by norm_num
    rw [h50]
    exact mul_lt_mul_of_pos_left hlt (by norm_num)

/-- C10 witness: price 26225 (an odd multiple of 25, midway between 26200
and 26250) selects a strike on a 100-point multiple at distance 25, and
price 26179 selects its strike strictly nearer than the competing
multiple 26150. -/
theorem C10_witness :
    (∃ j : ℤ, atm_strike (25 * ((1049 : ℤ) : ℚ)) = 100 * j) ∧
    |25 * ((1049 : ℤ) : ℚ) - (atm_strike (25 * ((1049 : ℤ) : ℚ)) : ℚ)| = 25 ∧
    |(26179 : ℚ) - (atm_strike 26179 : ℚ)| < |(26179 : ℚ) - 50 * ((523 : ℤ) : ℚ)| := by
  obtain ⟨h1, h2⟩ := C10_strike_rounds_half_to_even.1 1049 ⟨524, by norm_num⟩
  refine ⟨h1, h2, ?_⟩
  refine C10_strike_rounds_half_to_even.2 26179 ?_ 523 ?_
  · rintro ⟨m, hmo, hme⟩
    have hint : (25 * m : ℤ) = 26179 := by exact_mod_cast hme.symm
    omega
  · have hval : atm_strike 26179 = 26200 := by norm_num [atm_strike, pyRound]
    rw [hval]
    norm_num
